import Mathlib

set_option autoImplicit false

/-!
Verification of the ChargeLab calculation engines.

The two engines of the repository are embedded shallowly:

* `ChemistryCalculator.calculate` (src/chemistry.js, lines 69-222): the
  stoichiometry / electrochemistry engine, modelled over `ℚ`.  JavaScript
  numbers are IEEE doubles; the `ℚ` model is the exact-arithmetic
  idealization of the same formulas (every operation of the source is a
  rational operation here).  The wall-clock `timestamp` field of the result
  record is not modelled (it is explicitly excluded by the properties that
  mention the result record).

* `ChemistryCalculator.calculateJs` : the same numeric pipeline over
  `JsNum`, a model of JavaScript numbers that keeps the IEEE special values
  Infinity, -Infinity and NaN (finite values are kept exact instead of
  rounded, and the sign of zero is not tracked).  This model settles the
  properties about division by zero propagating non-finite values.

* `MagneticFieldCalculator.calculate` (src/unnamed/part_001, lines 80-247):
  the magnetic-field engine, modelled over `ℝ` so that the constant
  `μ₀ = 4π×10⁻⁷` is exact.

Work-step lists are modelled by `WorkStep`: the title of each pushed step
together with the list of numeric values interpolated into its displayed
strings; the surrounding string formatting (`toFixed`, templates) is a
deterministic rendering of exactly these data and is not re-modelled.
-/

-- ============================================
-- Chemistry module (src/chemistry.js)
-- ============================================

namespace ChemistryCalculator

/-- CHEMISTRY_CONSTANTS.MOLAR_MASS_ZN (g/mol). -/
def MOLAR_MASS_ZN : ℚ := 65.38

/-- CHEMISTRY_CONSTANTS.MOLAR_MASS_MNO2 (g/mol). -/
def MOLAR_MASS_MNO2 : ℚ := 86.936

/-- CHEMISTRY_CONSTANTS.MOLAR_MASS_ZNO (g/mol). -/
def MOLAR_MASS_ZNO : ℚ := 81.38

/-- CHEMISTRY_CONSTANTS.MOLAR_MASS_MN2O3 (g/mol). -/
def MOLAR_MASS_MN2O3 : ℚ := 157.87

/-- CHEMISTRY_CONSTANTS.FARADAY (C/mol). -/
def FARADAY : ℚ := 96485

/-- CHEMISTRY_CONSTANTS.DEFAULT_VOLTAGE (V). -/
def DEFAULT_VOLTAGE : ℚ := 1.5

/-- CHEMISTRY_CONSTANTS.DEFAULT_ELECTRONS. -/
def DEFAULT_ELECTRONS : ℚ := 2

/-- CHEMISTRY_CONSTANTS.STOICH.MNO2: MnO₂ coefficient of Zn + 2MnO₂ → ZnO + Mn₂O₃. -/
def STOICH_MNO2 : ℚ := 2

/-- The input fields of the calculator at the time `calculate` runs
(`this.massZn`, …, `this.resistance` in the source; the spec's
`ReactionInput`).  `resistance` is `none` for the source's `null`. -/
structure ReactionInput where
  massZn : ℚ
  massMnO2 : ℚ
  molarMassZn : ℚ
  molarMassMnO2 : ℚ
  electronsPerReaction : ℚ
  cellVoltage : ℚ
  resistance : Option ℚ
deriving DecidableEq

/-- The result record built by `calculate` (the spec's `ReactionResult`).
The `timestamp` field (wall clock) is not modelled; the constant `reaction`
string is kept. -/
structure ReactionResult where
  inputs : ReactionInput
  molesZn : ℚ
  molesMnO2 : ℚ
  limitingReagent : String
  excessReagent : String
  molesReacting : ℚ
  excessMoles : ℚ
  massZnO : ℚ
  massMn2O3 : ℚ
  totalElectrons : ℚ
  chargeQ : ℚ
  energyJ : ℚ
  energyWh : ℚ
  current : Option ℚ
  runtimeHours : Option ℚ
  runtimeMinutes : Option ℚ
  reaction : String
deriving DecidableEq

/-- `ChemistryCalculator.calculate` (src/chemistry.js lines 69-222), exact
arithmetic over `ℚ`.  The source assigns the four branch-dependent
variables in a single if/else on `molesMnO2 < requiredMnO2ForZn`; here each
of the four is written with that same condition.  The source's optional
branch `if (this.resistance && this.resistance > 0)` is the `match`/`if`
on `resistance` (a number passes the truthiness test and the `> 0` test
exactly when it is positive). -/
def calculate (i : ReactionInput) : ReactionResult :=
  let molesZn := i.massZn / i.molarMassZn
  let molesMnO2 := i.massMnO2 / i.molarMassMnO2
  let requiredMnO2ForZn := molesZn * STOICH_MNO2
  let requiredZnForMnO2 := molesMnO2 / STOICH_MNO2
  let limitingReagent := if molesMnO2 < requiredMnO2ForZn then "MnO₂" else "Zn"
  let excessReagent := if molesMnO2 < requiredMnO2ForZn then "Zn" else "MnO₂"
  let molesReacting :=
    if molesMnO2 < requiredMnO2ForZn then molesMnO2 / STOICH_MNO2 else molesZn
  let excessMoles :=
    if molesMnO2 < requiredMnO2ForZn then molesZn - requiredZnForMnO2
    else molesMnO2 - requiredMnO2ForZn
  let totalElectrons := i.electronsPerReaction * molesReacting
  let chargeQ := totalElectrons * FARADAY
  let energyJ := i.cellVoltage * chargeQ
  let energyWh := energyJ / 3600
  let current : Option ℚ :=
    match i.resistance with
    | some r => if 0 < r then some (i.cellVoltage / r) else none
    | none => none
  let runtimeHours : Option ℚ :=
    match current with
    | some c => some (energyWh / (i.cellVoltage * c))
    | none => none
  let runtimeMinutes : Option ℚ :=
    match runtimeHours with
    | some rh => some (rh * 60)
    | none => none
  let massZnO := molesReacting * MOLAR_MASS_ZNO
  let massMn2O3 := molesReacting * MOLAR_MASS_MN2O3
  { inputs := i
    molesZn := molesZn
    molesMnO2 := molesMnO2
    limitingReagent := limitingReagent
    excessReagent := excessReagent
    molesReacting := molesReacting
    excessMoles := excessMoles
    massZnO := massZnO
    massMn2O3 := massMn2O3
    totalElectrons := totalElectrons
    chargeQ := chargeQ
    energyJ := energyJ
    energyWh := energyWh
    current := current
    runtimeHours := runtimeHours
    runtimeMinutes := runtimeMinutes
    reaction := "Zn + 2MnO₂ → ZnO + Mn₂O₃" }

/-- CHEMISTRY_PRESETS.A: massZn = 1.0 g, massMnO2 = 2.0 g, all other
parameters at their defaults. -/
def presetA : ReactionInput :=
  { massZn := 1
    massMnO2 := 2
    molarMassZn := MOLAR_MASS_ZN
    molarMassMnO2 := MOLAR_MASS_MNO2
    electronsPerReaction := DEFAULT_ELECTRONS
    cellVoltage := DEFAULT_VOLTAGE
    resistance := none }

/-- CHEMISTRY_PRESETS.B: massZn = 10.0 g, massMnO2 = 100.0 g, defaults
otherwise. -/
def presetB : ReactionInput :=
  { massZn := 10
    massMnO2 := 100
    molarMassZn := MOLAR_MASS_ZN
    molarMassMnO2 := MOLAR_MASS_MNO2
    electronsPerReaction := DEFAULT_ELECTRONS
    cellVoltage := DEFAULT_VOLTAGE
    resistance := none }

end ChemistryCalculator

-- ============================================
-- JavaScript number model with IEEE special values
-- ============================================

/-- A JavaScript number: a finite value (kept exact as a rational instead of
rounded to a double), `Infinity`, `-Infinity` or `NaN`.  The sign of zero is
not tracked (`0` stands for `+0`). -/
inductive JsNum where
  | fin (q : ℚ)
  | inf
  | negInf
  | nan
deriving DecidableEq

namespace JsNum

/-- JavaScript multiplication on `JsNum`: `0 × ±Infinity = NaN`, `NaN`
propagates, finite values multiply exactly. -/
def mul : JsNum → JsNum → JsNum
  | nan, _ => nan
  | _, nan => nan
  | fin a, fin b => fin (a * b)
  | fin a, inf => if 0 < a then inf else if a < 0 then negInf else nan
  | fin a, negInf => if 0 < a then negInf else if a < 0 then inf else nan
  | inf, fin b => if 0 < b then inf else if b < 0 then negInf else nan
  | negInf, fin b => if 0 < b then negInf else if b < 0 then inf else nan
  | inf, inf => inf
  | inf, negInf => negInf
  | negInf, inf => negInf
  | negInf, negInf => inf

/-- JavaScript division on `JsNum`: a nonzero finite value divided by zero
gives `±Infinity`, `0 / 0 = NaN`, `±Infinity / ±Infinity = NaN`, `NaN`
propagates (the untracked sign of zero makes `x / 0` use the sign of `x`,
and `±Infinity / 0 = ±Infinity`). -/
def div : JsNum → JsNum → JsNum
  | nan, _ => nan
  | _, nan => nan
  | fin a, fin b =>
      if b = 0 then (if 0 < a then inf else if a < 0 then negInf else nan)
      else fin (a / b)
  | fin _, inf => fin 0
  | fin _, negInf => fin 0
  | inf, fin b => if b < 0 then negInf else inf
  | negInf, fin b => if b < 0 then inf else negInf
  | inf, inf => nan
  | inf, negInf => nan
  | negInf, inf => nan
  | negInf, negInf => nan

/-- JavaScript subtraction on `JsNum`: `Infinity - Infinity = NaN`, `NaN`
propagates. -/
def sub : JsNum → JsNum → JsNum
  | nan, _ => nan
  | _, nan => nan
  | fin a, fin b => fin (a - b)
  | fin _, inf => negInf
  | fin _, negInf => inf
  | inf, fin _ => inf
  | negInf, fin _ => negInf
  | inf, inf => nan
  | inf, negInf => inf
  | negInf, inf => negInf
  | negInf, negInf => nan

/-- The JavaScript `<` comparison: any comparison with `NaN` is `false`. -/
def lt : JsNum → JsNum → Bool
  | nan, _ => false
  | _, nan => false
  | fin a, fin b => decide (a < b)
  | fin _, inf => true
  | fin _, negInf => false
  | inf, _ => false
  | negInf, negInf => false
  | negInf, fin _ => true
  | negInf, inf => true

/-- A mole count the spec calls bad: non-finite (`±Infinity` or `NaN`) or a
negative finite value. -/
def isNonFiniteOrNeg : JsNum → Bool
  | inf => true
  | negInf => true
  | nan => true
  | fin q => decide (q < 0)

end JsNum

namespace ChemistryCalculator

/-- The numeric fields of the result record of `calculate`, at the `JsNum`
level of modelling (strings as in `ReactionResult`). -/
structure ReactionResultJs where
  molesZn : JsNum
  molesMnO2 : JsNum
  limitingReagent : String
  excessReagent : String
  molesReacting : JsNum
  excessMoles : JsNum
  massZnO : JsNum
  massMn2O3 : JsNum
  totalElectrons : JsNum
  chargeQ : JsNum
  energyJ : JsNum
  energyWh : JsNum
  current : Option JsNum
  runtimeHours : Option JsNum
  runtimeMinutes : Option JsNum
deriving DecidableEq

/-- `ChemistryCalculator.calculate` again, but over `JsNum`, keeping the
IEEE special values so that unguarded division by a zero molar mass is
modelled faithfully (the `ℚ` model `calculate` is the same pipeline for
inputs on which no special value arises). -/
def calculateJs (i : ReactionInput) : ReactionResultJs :=
  let molesZn := JsNum.div (.fin i.massZn) (.fin i.molarMassZn)
  let molesMnO2 := JsNum.div (.fin i.massMnO2) (.fin i.molarMassMnO2)
  let requiredMnO2ForZn := JsNum.mul molesZn (.fin STOICH_MNO2)
  let requiredZnForMnO2 := JsNum.div molesMnO2 (.fin STOICH_MNO2)
  let limitingReagent := if JsNum.lt molesMnO2 requiredMnO2ForZn then "MnO₂" else "Zn"
  let excessReagent := if JsNum.lt molesMnO2 requiredMnO2ForZn then "Zn" else "MnO₂"
  let molesReacting :=
    if JsNum.lt molesMnO2 requiredMnO2ForZn then JsNum.div molesMnO2 (.fin STOICH_MNO2)
    else molesZn
  let excessMoles :=
    if JsNum.lt molesMnO2 requiredMnO2ForZn then JsNum.sub molesZn requiredZnForMnO2
    else JsNum.sub molesMnO2 requiredMnO2ForZn
  let totalElectrons := JsNum.mul (.fin i.electronsPerReaction) molesReacting
  let chargeQ := JsNum.mul totalElectrons (.fin FARADAY)
  let energyJ := JsNum.mul (.fin i.cellVoltage) chargeQ
  let energyWh := JsNum.div energyJ (.fin 3600)
  let current : Option JsNum :=
    match i.resistance with
    | some r => if 0 < r then some (JsNum.div (.fin i.cellVoltage) (.fin r)) else none
    | none => none
  let runtimeHours : Option JsNum :=
    match current with
    | some c => some (JsNum.div energyWh (JsNum.mul (.fin i.cellVoltage) c))
    | none => none
  let runtimeMinutes : Option JsNum :=
    match runtimeHours with
    | some rh => some (JsNum.mul rh (.fin 60))
    | none => none
  let massZnO := JsNum.mul molesReacting (.fin MOLAR_MASS_ZNO)
  let massMn2O3 := JsNum.mul molesReacting (.fin MOLAR_MASS_MN2O3)
  { molesZn := molesZn
    molesMnO2 := molesMnO2
    limitingReagent := limitingReagent
    excessReagent := excessReagent
    molesReacting := molesReacting
    excessMoles := excessMoles
    massZnO := massZnO
    massMn2O3 := massMn2O3
    totalElectrons := totalElectrons
    chargeQ := chargeQ
    energyJ := energyJ
    energyWh := energyWh
    current := current
    runtimeHours := runtimeHours
    runtimeMinutes := runtimeMinutes }

end ChemistryCalculator

-- ============================================
-- Work steps and the stateful calculator objects
-- ============================================

/-- One entry pushed onto `this.workSteps`: its title and the numeric
values interpolated into its displayed strings, in display order.  The
description and the string formatting around these values are a fixed
deterministic rendering and are not re-modelled. -/
structure WorkStep (α : Type) where
  title : String
  values : List α
deriving DecidableEq

namespace ChemistryCalculator

/-- The work-step list built by `ChemistryCalculator.calculate`
(src/chemistry.js lines 76-175): five steps always, plus the current /
runtime step when a positive resistance is supplied. -/
def calculateWorkSteps (i : ReactionInput) : List (WorkStep ℚ) :=
  let molesZn := i.massZn / i.molarMassZn
  let molesMnO2 := i.massMnO2 / i.molarMassMnO2
  let requiredMnO2ForZn := molesZn * STOICH_MNO2
  let requiredZnForMnO2 := molesMnO2 / STOICH_MNO2
  let molesReacting :=
    if molesMnO2 < requiredMnO2ForZn then molesMnO2 / STOICH_MNO2 else molesZn
  let excessMoles :=
    if molesMnO2 < requiredMnO2ForZn then molesZn - requiredZnForMnO2
    else molesMnO2 - requiredMnO2ForZn
  let totalElectrons := i.electronsPerReaction * molesReacting
  let chargeQ := totalElectrons * FARADAY
  let energyJ := i.cellVoltage * chargeQ
  let energyWh := energyJ / 3600
  let base : List (WorkStep ℚ) :=
    [⟨"Convert mass to moles",
      [i.massZn, i.molarMassZn, molesZn, i.massMnO2, i.molarMassMnO2, molesMnO2]⟩,
     ⟨"Identify limiting reagent",
      [molesZn, requiredMnO2ForZn, molesMnO2, excessMoles]⟩,
     ⟨"Calculate electrons transferred",
      [i.electronsPerReaction, molesReacting, totalElectrons]⟩,
     ⟨"Calculate total charge", [totalElectrons, FARADAY, chargeQ]⟩,
     ⟨"Calculate theoretical energy", [i.cellVoltage, chargeQ, energyJ, energyWh]⟩]
  match i.resistance with
  | some r =>
      if 0 < r then
        let current := i.cellVoltage / r
        let runtimeHours := energyWh / (i.cellVoltage * current)
        base ++ [⟨"Estimate current and runtime (approximation)",
          [r, i.cellVoltage, current, i.cellVoltage * current, energyWh,
           runtimeHours, runtimeHours * 60]⟩]
      else base
  | none => base

/-- The mutable state of a `ChemistryCalculator` object: its seven input
fields (grouped as one `ReactionInput`), `this.results` and
`this.workSteps`. -/
structure State where
  input : ReactionInput
  results : Option ReactionResult
  workSteps : List (WorkStep ℚ)

/-- The `calculate` method as a state transformer: it rebuilds
`this.workSteps` from scratch, stores the result record in `this.results`
and returns it; the input fields are not written. -/
def State.calculateM (s : State) : State × ReactionResult :=
  let r := calculate s.input
  ({ s with results := some r, workSteps := calculateWorkSteps s.input }, r)

end ChemistryCalculator

-- ============================================
-- Physics module (src/unnamed/part_001)
-- ============================================

namespace MagneticFieldCalculator

/-- PHYSICS_CONSTANTS.MU_0: permeability of free space, `4π × 10⁻⁷` H/m
(the source computes `4 * Math.PI * 1e-7`). -/
noncomputable def MU_0 : ℝ := 4 * Real.pi * 1e-7

/-- PHYSICS_CONSTANTS.PERMEABILITY: the relative-permeability table, keyed
by material name; `none` for a key that is not in the table. -/
def PERMEABILITY (material : String) : Option ℝ :=
  if material = "air" then some 1
  else if material = "ferrite" then some 2000
  else if material = "steel" then some 4000
  else none

/-- The input fields of the calculator at the time `calculate` runs
(`this.conductorType`, …, `this.material`; the spec's `FieldInput`). -/
structure FieldInput where
  conductorType : String
  current : ℝ
  turns : ℝ
  radius : ℝ
  length : ℝ
  distance : ℝ
  material : String

/-- `MagneticFieldCalculator.getMu_r` (lines 73-75):
`PERMEABILITY[this.material]?.value || 1` — the table value, or `1` when
the material is not a key of the table (no table value is `0`, so the
JavaScript `|| 1` fires exactly on a missing key). -/
noncomputable def getMu_r (material : String) : ℝ :=
  (PERMEABILITY material).getD 1

/-- `calculateStraightWire` (lines 139-166): `B = μ₀ I / (2πr)` at distance
`this.distance`; the material is not consulted. -/
noncomputable def calculateStraightWire (mu_0 : ℝ) (i : FieldInput) : ℝ :=
  mu_0 * i.current / (2 * Real.pi * i.distance)

/-- `calculateSingleLoop` (lines 172-201): `B = μ₀ μᵣ N I / (2r)`. -/
noncomputable def calculateSingleLoop (mu_0 mu_r : ℝ) (i : FieldInput) : ℝ :=
  mu_0 * mu_r * i.turns * i.current / (2 * i.radius)

/-- `calculateSolenoid` (lines 207-247): `B = μ₀ μᵣ N I / L`. -/
noncomputable def calculateSolenoid (mu_0 mu_r : ℝ) (i : FieldInput) : ℝ :=
  mu_0 * mu_r * i.turns * i.current / i.length

/-- The result record built by `calculate` (the spec's `FieldResult`); the
wall-clock `timestamp` field is not modelled. -/
structure FieldResult where
  B : ℝ
  B_mT : ℝ
  B_uT : ℝ
  formula : String
  description : String
  conductorType : String
  inputs : FieldInput
  mu_r : ℝ
  mu_0 : ℝ
  mu : ℝ

/-- `MagneticFieldCalculator.calculate` (lines 80-133): dispatch on
`this.conductorType` (a JavaScript string switch is successive equality
tests); the source's `case 'solenoid': default:` pair is the final
else. -/
noncomputable def calculate (i : FieldInput) : FieldResult :=
  let mu_r := getMu_r i.material
  let mu_0 := MU_0
  let bfd : ℝ × String × String :=
    if i.conductorType = "straight-wire" then
      (calculateStraightWire mu_0 i, "B = μ₀ × I / (2πr)",
       "Magnetic field around an infinite straight conductor")
    else if i.conductorType = "single-loop" then
      (calculateSingleLoop mu_0 mu_r i, "B ≈ μ₀ × μᵣ × N × I / (2r)",
       "Magnetic field at the center of a circular loop (or coil)")
    else
      (calculateSolenoid mu_0 mu_r i, "B = μ₀ × μᵣ × N × I / L",
       "Magnetic field inside a solenoid (center approximation)")
  { B := bfd.1
    B_mT := bfd.1 * 1000
    B_uT := bfd.1 * 1e6
    formula := bfd.2.1
    description := bfd.2.2
    conductorType := i.conductorType
    inputs := i
    mu_r := mu_r
    mu_0 := mu_0
    mu := mu_0 * mu_r }

/-- The work-step list built during `calculate`: the steps pushed by the
branch helper that computed `B` (the solenoid branch also reports the
turns density `N / L` in its third step, line 240). -/
noncomputable def calculateWorkSteps (i : FieldInput) : List (WorkStep ℝ) :=
  let mu_r := getMu_r i.material
  let mu_0 := MU_0
  if i.conductorType = "straight-wire" then
    [⟨"Apply Biot-Savart law for straight wire",
      [mu_0, i.current, i.distance, calculateStraightWire mu_0 i]⟩,
     ⟨"Direction (Right-Hand Rule)", []⟩]
  else if i.conductorType = "single-loop" then
    [⟨"Calculate field at center of circular coil",
      [mu_0, mu_r, i.turns, i.current, i.radius, calculateSingleLoop mu_0 mu_r i]⟩,
     ⟨"Direction (Right-Hand Rule for Loops)", []⟩]
  else
    [⟨"Apply solenoid formula",
      [mu_0, mu_r, i.turns, i.current, i.length, calculateSolenoid mu_0 mu_r i]⟩,
     ⟨"Solenoid field properties", []⟩,
     ⟨"Turns density (n)", [i.turns, i.length, i.turns / i.length]⟩]

/-- The mutable state of a `MagneticFieldCalculator` object: its input
fields (grouped as one `FieldInput`), `this.results` and `this.workSteps`. -/
structure State where
  input : FieldInput
  results : Option FieldResult
  workSteps : List (WorkStep ℝ)

/-- The `calculate` method as a state transformer: it rebuilds
`this.workSteps`, stores the result record and returns it; the input
fields are not written. -/
noncomputable def State.calculateM (s : State) : State × FieldResult :=
  let r := calculate s.input
  ({ s with results := some r, workSteps := calculateWorkSteps s.input }, r)

end MagneticFieldCalculator

-- ============================================
-- Theorems
-- ============================================

open ChemistryCalculator in
/-- Claim C1: for every `ReactionInput` with positive molar masses, the
limiting-reagent step of `ChemistryCalculator.calculate` compares
`molesMnO2` with `requiredMnO2ForZn = molesZn × 2`: strictly below it,
MnO₂ is limiting with `molesReacting = molesMnO2 / 2` and excess
`Zn = molesZn − molesMnO2 / 2`; otherwise — the exact tie included — Zn is
limiting with `molesReacting = molesZn` and excess
`MnO₂ = molesMnO2 − molesZn × 2`, which is `0` in the tie case. -/
theorem C1_limiting_reagent_branch (i : ReactionInput)
    (hz : 0 < i.molarMassZn) (hm : 0 < i.molarMassMnO2) :
    (i.massMnO2 / i.molarMassMnO2 < i.massZn / i.molarMassZn * 2 →
      (calculate i).limitingReagent = "MnO₂" ∧
      (calculate i).excessReagent = "Zn" ∧
      (calculate i).molesReacting = i.massMnO2 / i.molarMassMnO2 / 2 ∧
      (calculate i).excessMoles =
        i.massZn / i.molarMassZn - i.massMnO2 / i.molarMassMnO2 / 2) ∧
    (i.massZn / i.molarMassZn * 2 ≤ i.massMnO2 / i.molarMassMnO2 →
      (calculate i).limitingReagent = "Zn" ∧
      (calculate i).excessReagent = "MnO₂" ∧
      (calculate i).molesReacting = i.massZn / i.molarMassZn ∧
      (calculate i).excessMoles =
        i.massMnO2 / i.molarMassMnO2 - i.massZn / i.molarMassZn * 2) ∧
    (i.massMnO2 / i.molarMassMnO2 = i.massZn / i.molarMassZn * 2 →
      (calculate i).limitingReagent = "Zn" ∧ (calculate i).excessMoles = 0) := by
  refine ⟨fun h => ?_, fun h => ?_, fun h => ?_⟩
  · simp only [calculate, STOICH_MNO2]
    rw [if_pos h, if_pos h, if_pos h, if_pos h]
    exact ⟨rfl, rfl, rfl, rfl⟩
  · have h' : ¬(i.massMnO2 / i.molarMassMnO2 < i.massZn / i.molarMassZn * 2) :=
      not_lt.mpr h
    simp only [calculate, STOICH_MNO2]
    rw [if_neg h', if_neg h', if_neg h', if_neg h']
    exact ⟨rfl, rfl, rfl, rfl⟩
  · have h' : ¬(i.massMnO2 / i.molarMassMnO2 < i.massZn / i.molarMassZn * 2) :=
      not_lt.mpr h.ge
    simp only [calculate, STOICH_MNO2]
    rw [if_neg h', if_neg h']
    exact ⟨rfl, by rw [h]; ring⟩

/-- Witness for C1 at a concrete input: massZn = 2 g, massMnO2 = 2 g with
molar masses 1 makes MnO₂ limiting (2 < 4). -/
theorem C1_limiting_reagent_branch_witness :
    (ChemistryCalculator.calculate
        ⟨2, 2, 1, 1, 2, 1.5, none⟩).limitingReagent = "MnO₂" ∧
    (ChemistryCalculator.calculate
        ⟨2, 2, 1, 1, 2, 1.5, none⟩).molesReacting = (2 : ℚ) / 1 / 2 := by
  have h := (C1_limiting_reagent_branch ⟨2, 2, 1, 1, 2, 1.5, none⟩
    (by norm_num) (by norm_num)).1 (by norm_num)
  exact ⟨h.1, h.2.2.1⟩

open ChemistryCalculator in
/-- Claim C2: for every `ReactionInput` with positive masses and molar
masses, `ChemistryCalculator.calculate` reports exactly one of Zn and MnO₂
as limiting, the other as excess, and the excess moles are nonnegative. -/
theorem C2_exactly_one_limiting (i : ReactionInput)
    (hmz : 0 < i.massZn) (hmm : 0 < i.massMnO2)
    (hz : 0 < i.molarMassZn) (hm : 0 < i.molarMassMnO2) :
    (((calculate i).limitingReagent = "Zn" ∧ (calculate i).excessReagent = "MnO₂") ∨
     ((calculate i).limitingReagent = "MnO₂" ∧ (calculate i).excessReagent = "Zn")) ∧
    ¬((calculate i).limitingReagent = "Zn" ∧ (calculate i).limitingReagent = "MnO₂") ∧
    0 ≤ (calculate i).excessMoles := by
  simp only [calculate, STOICH_MNO2]
  split_ifs with hc
  · refine ⟨Or.inr ⟨rfl, rfl⟩, by simp, ?_⟩
    rw [sub_nonneg]
    calc i.massMnO2 / i.molarMassMnO2 / 2 ≤ i.massZn / i.molarMassZn * 2 / 2 := by
          exact div_le_div_of_nonneg_right hc.le (by norm_num)
      _ = i.massZn / i.molarMassZn := by ring
  · exact ⟨Or.inl ⟨rfl, rfl⟩, by simp, by rw [sub_nonneg]; exact not_lt.mp hc⟩

open ChemistryCalculator in
/-- Witness for C2 at Preset A (1 g Zn, 2 g MnO₂, default molar masses). -/
theorem C2_exactly_one_limiting_witness :
    (((ChemistryCalculator.calculate presetA).limitingReagent = "Zn" ∧
      (ChemistryCalculator.calculate presetA).excessReagent = "MnO₂") ∨
     ((ChemistryCalculator.calculate presetA).limitingReagent = "MnO₂" ∧
      (ChemistryCalculator.calculate presetA).excessReagent = "Zn")) ∧
    ¬((ChemistryCalculator.calculate presetA).limitingReagent = "Zn" ∧
      (ChemistryCalculator.calculate presetA).limitingReagent = "MnO₂") ∧
    0 ≤ (ChemistryCalculator.calculate presetA).excessMoles :=
  C2_exactly_one_limiting presetA (by norm_num [presetA])
    (by norm_num [presetA]) (by norm_num [presetA, MOLAR_MASS_ZN])
    (by norm_num [presetA, MOLAR_MASS_MNO2])

open ChemistryCalculator in
/-- Claim C3: for every `ReactionInput`, `ChemistryCalculator.calculate`
computes `totalElectrons = electronsPerReaction × molesReacting`,
`chargeQ = totalElectrons × 96485`, `energyJ = cellVoltage × chargeQ` and
`energyWh = energyJ / 3600`; hence `energyWh × 3600 = energyJ` — exact in
this rational model, so in particular within the claimed `1e-6` relative
floating-point tolerance. -/
theorem C3_electro_chain (i : ReactionInput) :
    (calculate i).totalElectrons =
      i.electronsPerReaction * (calculate i).molesReacting ∧
    (calculate i).chargeQ = (calculate i).totalElectrons * 96485 ∧
    (calculate i).energyJ = i.cellVoltage * (calculate i).chargeQ ∧
    (calculate i).energyWh = (calculate i).energyJ / 3600 ∧
    (calculate i).energyWh * 3600 = (calculate i).energyJ := by
  refine ⟨rfl, rfl, rfl, rfl, ?_⟩
  simp only [calculate]
  rw [div_mul_cancel₀]
  norm_num

open ChemistryCalculator in
/-- Claim C6: when `resistance` is supplied and positive, the result
carries `current = cellVoltage / resistance`,
`runtimeHours = energyWh / (cellVoltage × current)` and
`runtimeMinutes = runtimeHours × 60`; when `resistance` is absent or `≤ 0`
all three are absent and every remaining result field is the one computed
with no resistance at all. -/
theorem C6_optional_runtime (i : ReactionInput) :
    (∀ r : ℚ, i.resistance = some r → 0 < r →
      (calculate i).current = some (i.cellVoltage / r) ∧
      (calculate i).runtimeHours =
        some ((calculate i).energyWh / (i.cellVoltage * (i.cellVoltage / r))) ∧
      (calculate i).runtimeMinutes =
        some ((calculate i).energyWh / (i.cellVoltage * (i.cellVoltage / r)) * 60)) ∧
    ((i.resistance = none ∨ ∃ r : ℚ, i.resistance = some r ∧ r ≤ 0) →
      (calculate i).current = none ∧
      (calculate i).runtimeHours = none ∧
      (calculate i).runtimeMinutes = none ∧
      (calculate i).molesZn = (calculate { i with resistance := none }).molesZn ∧
      (calculate i).molesMnO2 = (calculate { i with resistance := none }).molesMnO2 ∧
      (calculate i).limitingReagent =
        (calculate { i with resistance := none }).limitingReagent ∧
      (calculate i).excessReagent =
        (calculate { i with resistance := none }).excessReagent ∧
      (calculate i).molesReacting =
        (calculate { i with resistance := none }).molesReacting ∧
      (calculate i).excessMoles =
        (calculate { i with resistance := none }).excessMoles ∧
      (calculate i).massZnO = (calculate { i with resistance := none }).massZnO ∧
      (calculate i).massMn2O3 = (calculate { i with resistance := none }).massMn2O3 ∧
      (calculate i).totalElectrons =
        (calculate { i with resistance := none }).totalElectrons ∧
      (calculate i).chargeQ = (calculate { i with resistance := none }).chargeQ ∧
      (calculate i).energyJ = (calculate { i with resistance := none }).energyJ ∧
      (calculate i).energyWh = (calculate { i with resistance := none }).energyWh) := by
  constructor
  · intro r hr hrpos
    simp only [calculate, hr]
    rw [if_pos hrpos]
    exact ⟨rfl, rfl, rfl⟩
  · rintro (hn | ⟨r, hr, hle⟩)
    · simp only [calculate, hn]
      simp
    · simp only [calculate, hr]
      rw [if_neg (not_lt.mpr hle)]
      simp

open ChemistryCalculator in
/-- Witness for C6: with a 10 Ω load on Preset A's masses the three runtime
fields are present as claimed, and with a −5 Ω resistance they are absent. -/
theorem C6_optional_runtime_witness :
    ((calculate { presetA with resistance := some 10 }).current =
      some ((presetA.cellVoltage : ℚ) / 10) ∧
     (calculate { presetA with resistance := some 10 }).runtimeHours =
      some ((calculate { presetA with resistance := some 10 }).energyWh /
        (presetA.cellVoltage * (presetA.cellVoltage / 10))) ∧
     (calculate { presetA with resistance := some 10 }).runtimeMinutes =
      some ((calculate { presetA with resistance := some 10 }).energyWh /
        (presetA.cellVoltage * (presetA.cellVoltage / 10)) * 60)) ∧
    (calculate { presetA with resistance := some (-5) }).current = none := by
  refine ⟨(C6_optional_runtime { presetA with resistance := some 10 }) |>.1 10 rfl
    (by norm_num), ?_⟩
  exact ((C6_optional_runtime { presetA with resistance := some (-5) }).2
    (Or.inr ⟨-5, rfl, by norm_num⟩)).1

open ChemistryCalculator in
/-- Counterexample for claim C5: the preset values printed in the spec do
not match what `ChemistryCalculator.calculate` computes.  On Preset A the
charge is `2 × (2/86.936) / 2 × 2 × 96485 ≈ 2219.68 C`, not `≈ 2220.6 C`
(and the energy is `≈ 0.92487 Wh`, not `≈ 0.9253 Wh`); on Preset B the
charge is `≈ 29515.1 C`, not `≈ 29522 C`.  Each `≈ v` of the claim is read
as agreement to the precision printed, `|x − v| ≤` half a unit in the last
printed digit. -/
theorem C5_preset_scenarios_counterexample :
    ¬(|(calculate presetA).molesZn - 0.015295| ≤ 0.0000005 ∧
      |(calculate presetA).molesMnO2 - 0.023006| ≤ 0.0000005 ∧
      (calculate presetA).limitingReagent = "MnO₂" ∧
      |(calculate presetA).chargeQ - 2220.6| ≤ 0.05 ∧
      |(calculate presetA).energyWh - 0.9253| ≤ 0.00005 ∧
      (calculate presetB).limitingReagent = "Zn" ∧
      |(calculate presetB).chargeQ - 29522| ≤ 0.5 ∧
      |(calculate presetB).energyWh - 12.30| ≤ 0.005) := by
  intro h
  have h4 := h.2.2.2.1
  norm_num [calculate, presetA, STOICH_MNO2, MOLAR_MASS_ZN, MOLAR_MASS_MNO2,
    FARADAY, DEFAULT_ELECTRONS, DEFAULT_VOLTAGE, abs_le] at h4

open ChemistryCalculator in
/-- Claim C5 as amended: the same preset scenarios with the values the code
actually produces.  Preset A: molesZn ≈ 0.015295, molesMnO2 ≈ 0.023005,
MnO₂ limiting, charge ≈ 2219.7 C, energy ≈ 0.9249 Wh; Preset B: Zn
limiting, charge ≈ 29515 C, energy ≈ 12.30 Wh. -/
theorem C5_preset_scenarios :
    |(calculate presetA).molesZn - 0.015295| ≤ 0.0000005 ∧
    |(calculate presetA).molesMnO2 - 0.023005| ≤ 0.0000005 ∧
    (calculate presetA).limitingReagent = "MnO₂" ∧
    |(calculate presetA).chargeQ - 2219.7| ≤ 0.05 ∧
    |(calculate presetA).energyWh - 0.9249| ≤ 0.00005 ∧
    (calculate presetB).limitingReagent = "Zn" ∧
    |(calculate presetB).chargeQ - 29515| ≤ 0.5 ∧
    |(calculate presetB).energyWh - 12.30| ≤ 0.005 := by
  norm_num [calculate, presetA, presetB, STOICH_MNO2, MOLAR_MASS_ZN,
    MOLAR_MASS_MNO2, FARADAY, DEFAULT_ELECTRONS, DEFAULT_VOLTAGE, abs_le]

open ChemistryCalculator in
/-- Counterexample for claim C8: with `massZn = 0` and `molarMassZn = −1`
(all other fields well-formed) the claim's hypothesis holds — a molar mass
is negative — yet `0 / −1 = 0`, so no mole count of the result is
non-finite or negative.  The no-validation half of the claim is true (the
division runs unguarded); the "producing …" half fails at this input. -/
theorem C8_unvalidated_molar_mass_counterexample :
    ((⟨0, 0, -1, 86.936, 2, 1.5, none⟩ : ReactionInput).molarMassZn ≤ 0 ∨
     (⟨0, 0, -1, 86.936, 2, 1.5, none⟩ : ReactionInput).molarMassMnO2 ≤ 0) ∧
    JsNum.isNonFiniteOrNeg
      (calculateJs ⟨0, 0, -1, 86.936, 2, 1.5, none⟩).molesZn = false ∧
    JsNum.isNonFiniteOrNeg
      (calculateJs ⟨0, 0, -1, 86.936, 2, 1.5, none⟩).molesMnO2 = false ∧
    JsNum.isNonFiniteOrNeg
      (calculateJs ⟨0, 0, -1, 86.936, 2, 1.5, none⟩).molesReacting = false ∧
    JsNum.isNonFiniteOrNeg
      (calculateJs ⟨0, 0, -1, 86.936, 2, 1.5, none⟩).excessMoles = false := by
  refine ⟨Or.inl (by norm_num), ?_, ?_, ?_, ?_⟩ <;>
    norm_num [calculateJs, JsNum.div, JsNum.mul, JsNum.sub, JsNum.lt,
      JsNum.isNonFiniteOrNeg, STOICH_MNO2]

open ChemistryCalculator in
/-- Claim C8 as amended: for a `ReactionInput` with nonnegative masses in
which a molar mass is zero, or negative with the corresponding mass
positive, the engine validates nothing — the mass-to-moles division runs
unguarded — and the result record carries a non-finite (`Infinity`/`NaN`)
or negative mole count (`calculateJs` is total: no error is raised). -/
theorem C8_unvalidated_molar_mass (i : ReactionInput)
    (hmz : 0 ≤ i.massZn) (hmm : 0 ≤ i.massMnO2)
    (h : i.molarMassZn = 0 ∨ (i.molarMassZn < 0 ∧ 0 < i.massZn) ∨
         i.molarMassMnO2 = 0 ∨ (i.molarMassMnO2 < 0 ∧ 0 < i.massMnO2)) :
    JsNum.isNonFiniteOrNeg (calculateJs i).molesZn = true ∨
    JsNum.isNonFiniteOrNeg (calculateJs i).molesMnO2 = true := by
  rcases h with h | ⟨h, hpos⟩ | h | ⟨h, hpos⟩
  · left
    simp only [calculateJs, JsNum.div, h, if_pos rfl]
    rcases eq_or_lt_of_le hmz with hz | hz
    · simp [JsNum.isNonFiniteOrNeg, ← hz]
    · simp [JsNum.isNonFiniteOrNeg, hz]
  · left
    simp only [calculateJs, JsNum.div, if_neg h.ne, JsNum.isNonFiniteOrNeg]
    exact decide_eq_true (div_neg_of_pos_of_neg hpos h)
  · right
    simp only [calculateJs, JsNum.div, h, if_pos rfl]
    rcases eq_or_lt_of_le hmm with hz | hz
    · simp [JsNum.isNonFiniteOrNeg, ← hz]
    · simp [JsNum.isNonFiniteOrNeg, hz]
  · right
    simp only [calculateJs, JsNum.div, if_neg h.ne, JsNum.isNonFiniteOrNeg]
    exact decide_eq_true (div_neg_of_pos_of_neg hpos h)

open ChemistryCalculator in
/-- Witness for C8 (amended): with `massZn = 1` and `molarMassZn = 0` the
moles of Zn come out non-finite. -/
theorem C8_unvalidated_molar_mass_witness :
    JsNum.isNonFiniteOrNeg
      (calculateJs ⟨1, 2, 0, 86.936, 2, 1.5, none⟩).molesZn = true ∨
    JsNum.isNonFiniteOrNeg
      (calculateJs ⟨1, 2, 0, 86.936, 2, 1.5, none⟩).molesMnO2 = true :=
  C8_unvalidated_molar_mass ⟨1, 2, 0, 86.936, 2, 1.5, none⟩
    (by norm_num) (by norm_num) (Or.inl rfl)

/-- Claim C9: both engines are deterministic and idempotent.  Two calls of
the `calculate` method on calculators whose input fields agree — in
particular a second call on the very object a first call just mutated —
return the same result record (the wall-clock timestamp is not part of the
model, matching the claim's exclusion) and leave the same work-step list,
whatever `results`/`workSteps` state was present before. -/
theorem C9_deterministic_idempotent
    (s s' : ChemistryCalculator.State) (hs : s'.input = s.input)
    (p p' : MagneticFieldCalculator.State) (hp : p'.input = p.input) :
    s'.calculateM.2 = s.calculateM.2 ∧
    s'.calculateM.1.workSteps = s.calculateM.1.workSteps ∧
    p'.calculateM.2 = p.calculateM.2 ∧
    p'.calculateM.1.workSteps = p.calculateM.1.workSteps := by
  simp only [ChemistryCalculator.State.calculateM,
    MagneticFieldCalculator.State.calculateM, hs, hp]
  simp

/-- Witness for C9: the second call on the state left by a first call (on
Preset A for chemistry, on the solenoid preset for physics) returns the
first call's result and work steps. -/
theorem C9_deterministic_idempotent_witness :
    ((⟨ChemistryCalculator.presetA, none, []⟩ :
        ChemistryCalculator.State).calculateM.1).calculateM.2 =
      (⟨ChemistryCalculator.presetA, none, []⟩ :
        ChemistryCalculator.State).calculateM.2 ∧
    ((⟨ChemistryCalculator.presetA, none, []⟩ :
        ChemistryCalculator.State).calculateM.1).calculateM.1.workSteps =
      (⟨ChemistryCalculator.presetA, none, []⟩ :
        ChemistryCalculator.State).calculateM.1.workSteps ∧
    ((⟨⟨"solenoid", 2, 200, 0.01, 0.05, 0.01, "air"⟩, none, []⟩ :
        MagneticFieldCalculator.State).calculateM.1).calculateM.2 =
      (⟨⟨"solenoid", 2, 200, 0.01, 0.05, 0.01, "air"⟩, none, []⟩ :
        MagneticFieldCalculator.State).calculateM.2 ∧
    ((⟨⟨"solenoid", 2, 200, 0.01, 0.05, 0.01, "air"⟩, none, []⟩ :
        MagneticFieldCalculator.State).calculateM.1).calculateM.1.workSteps =
      (⟨⟨"solenoid", 2, 200, 0.01, 0.05, 0.01, "air"⟩, none, []⟩ :
        MagneticFieldCalculator.State).calculateM.1.workSteps :=
  C9_deterministic_idempotent _ _ rfl _ _ rfl

namespace MagneticFieldCalculator

/-- Helper: the `B` field of the result is the three-way dispatch on the
conductor type. -/
theorem calculate_B_cases (i : FieldInput) :
    (calculate i).B =
      if i.conductorType = "straight-wire" then calculateStraightWire MU_0 i
      else if i.conductorType = "single-loop" then
        calculateSingleLoop MU_0 (getMu_r i.material) i
      else calculateSolenoid MU_0 (getMu_r i.material) i := by
  simp only [calculate]
  split_ifs <;> rfl

/-- Helper: the three recognized materials and the default. -/
theorem getMu_r_values :
    getMu_r "air" = 1 ∧ getMu_r "ferrite" = 2000 ∧ getMu_r "steel" = 4000 := by
  refine ⟨?_, ?_, ?_⟩ <;> simp [getMu_r, PERMEABILITY]

end MagneticFieldCalculator

open MagneticFieldCalculator in
/-- Claim C4: `MagneticFieldCalculator.calculate` computes `B` by exactly
one of three formulas selected by `conductorType`: straight-wire gives
`B = μ₀ I / (2π·distance)` with `μ₀ = 4π × 10⁻⁷` and is independent of the
material's permeability; single-loop gives `B = μ₀ μᵣ N I / (2·radius)`;
solenoid gives `B = μ₀ μᵣ N I / length` and also reports the turns density
`N / length` (in its third work step); `μᵣ` is `air = 1`, `ferrite = 2000`,
`steel = 4000`. -/
theorem C4_field_formulas (i : FieldInput) :
    (getMu_r "air" = 1 ∧ getMu_r "ferrite" = 2000 ∧ getMu_r "steel" = 4000) ∧
    MU_0 = 4 * Real.pi * (1 / 10 ^ 7) ∧
    (i.conductorType = "straight-wire" →
      (calculate i).B = MU_0 * i.current / (2 * Real.pi * i.distance) ∧
      ∀ m : String, (calculate { i with material := m }).B = (calculate i).B) ∧
    (i.conductorType = "single-loop" →
      (calculate i).B =
        MU_0 * getMu_r i.material * i.turns * i.current / (2 * i.radius)) ∧
    (i.conductorType = "solenoid" →
      (calculate i).B =
        MU_0 * getMu_r i.material * i.turns * i.current / i.length ∧
      WorkStep.mk "Turns density (n)" [i.turns, i.length, i.turns / i.length] ∈
        calculateWorkSteps i) := by
  refine ⟨getMu_r_values, by norm_num [MU_0], fun h => ⟨?_, fun m => ?_⟩,
    fun h => ?_, fun h => ⟨?_, ?_⟩⟩
  · rw [calculate_B_cases, if_pos h]
    rfl
  · rw [calculate_B_cases, calculate_B_cases]
    simp only [h]
    rfl
  · rw [calculate_B_cases, if_neg (by rw [h]; decide), if_pos h]
    rfl
  · rw [calculate_B_cases, if_neg (by rw [h]; decide), if_neg (by rw [h]; decide)]
    rfl
  · simp only [calculateWorkSteps, h]
    rw [if_neg (by decide), if_neg (by decide)]
    exact List.Mem.tail _ (List.Mem.tail _ (List.Mem.head _))

open MagneticFieldCalculator in
/-- Witness for C4: a concrete solenoid input (N = 200, I = 2 A,
L = 0.05 m, air) takes the solenoid formula and reports the turns
density. -/
theorem C4_field_formulas_witness :
    (calculate ⟨"solenoid", 2, 200, 0.01, 0.05, 0.01, "air"⟩).B =
      MU_0 * getMu_r "air" * 200 * 2 / 0.05 ∧
    WorkStep.mk "Turns density (n)" [200, 0.05, 200 / 0.05] ∈
      calculateWorkSteps ⟨"solenoid", 2, 200, 0.01, 0.05, 0.01, "air"⟩ :=
  (C4_field_formulas ⟨"solenoid", 2, 200, 0.01, 0.05, 0.01, "air"⟩).2.2.2.2 rfl

open MagneticFieldCalculator in
/-- Claim C7: an unrecognized `conductorType` is not an error:
`calculate` silently computes `B` with the solenoid formula (the source's
`default:` arm; `calculate` is total, so nothing fails). -/
theorem C7_unrecognized_conductor_type (i : FieldInput)
    (h1 : i.conductorType ≠ "straight-wire")
    (h2 : i.conductorType ≠ "single-loop")
    (h3 : i.conductorType ≠ "solenoid") :
    (calculate i).B =
      MU_0 * getMu_r i.material * i.turns * i.current / i.length := by
  rw [calculate_B_cases, if_neg h1, if_neg h2]
  rfl

open MagneticFieldCalculator in
/-- Witness for C7 at the unrecognized conductor type "coil". -/
theorem C7_unrecognized_conductor_type_witness :
    (calculate ⟨"coil", 2, 200, 0.01, 0.05, 0.01, "air"⟩).B =
      MU_0 * getMu_r "air" * 200 * 2 / 0.05 :=
  C7_unrecognized_conductor_type ⟨"coil", 2, 200, 0.01, 0.05, 0.01, "air"⟩
    (by decide) (by decide) (by decide)

open MagneticFieldCalculator in
/-- Claim C10 (implicit): a material that is none of air, ferrite and steel
gets relative permeability `1` from `getMu_r` — the air value — so
`calculate` silently treats the unknown material as air: its `B` equals
the `B` computed with material "air". -/
theorem C10_unknown_material_is_air (m : String)
    (h1 : m ≠ "air") (h2 : m ≠ "ferrite") (h3 : m ≠ "steel")
    (i : FieldInput) (hm : i.material = m) :
    getMu_r m = 1 ∧
    (calculate i).B = (calculate { i with material := "air" }).B := by
  have hmu : getMu_r m = 1 := by
    simp only [getMu_r, PERMEABILITY]
    rw [if_neg h1, if_neg h2, if_neg h3]
    rfl
  refine ⟨hmu, ?_⟩
  rw [calculate_B_cases, calculate_B_cases]
  simp only
  rw [hm, hmu]
  rfl

open MagneticFieldCalculator in
/-- Witness for C10 at the unknown material "wood". -/
theorem C10_unknown_material_is_air_witness :
    getMu_r "wood" = 1 ∧
    (calculate ⟨"solenoid", 2, 200, 0.01, 0.05, 0.01, "wood"⟩).B =
      (calculate ⟨"solenoid", 2, 200, 0.01, 0.05, 0.01, "air"⟩).B :=
  C10_unknown_material_is_air "wood" (by decide) (by decide) (by decide)
    ⟨"solenoid", 2, 200, 0.01, 0.05, 0.01, "wood"⟩ rfl
